import Mathlib

/-!
Verification of the DCMA schedule-quality analyzer in `app.py`.

The analyzer is embedded shallowly: Python dictionaries returned by the
metric methods become Lean structures, Python numbers become rationals,
optional fields become `Option`, and Python truthiness tests on optional
numeric and string fields are embedded explicitly.  Dates are modelled as
rationals carrying the same order semantics the analyzer uses (it only
ever compares them).  `round(x, 2)` is embedded as rounding to the nearest
multiple of 1/100, ties to even, matching the documented behaviour of the
Python builtin on exact values.
-/

/-- Relationship between two activities: a link type code (for example
the string PR_FS for Finish-Start) and an optional signed lag in days. -/
structure Relationship where
  link : String
  lag : Option ℚ
deriving DecidableEq, Repr

/-- Activity record: the fields of the schedule model that the analyzer
reads.  Absent optional fields are `none`. -/
structure Activity where
  task_type : String
  duration : Option ℚ
  total_float : Option ℚ
  constraint_type : Option String
  start : Option ℚ
  finish : Option ℚ
  predecessors : List Relationship
  successors : List Relationship
  resources : List String
deriving DecidableEq, Repr

/-- Python truthiness conjunction `v and p(v)` for an optional number:
`None` and `0` are falsy. -/
def truthyAnd (v : Option ℚ) (p : ℚ → Bool) : Bool :=
  match v with
  | none => false
  | some x => !(x == 0) && p x

/-- Python truthiness conjunction `v and p(v)` for an optional string:
`None` and the empty string are falsy. -/
def truthyAndS (v : Option String) (p : String → Bool) : Bool :=
  match v with
  | none => false
  | some s => !(s == "") && p s

/-- Round a rational to the nearest integer, ties to even, as the Python
builtin `round` does on exact decimal values. -/
def roundHalfEven (q : ℚ) : ℤ :=
  let f := Int.floor q
  if q - f < 1/2 then f
  else if q - f > 1/2 then f + 1
  else if f % 2 = 0 then f else f + 1

/-- `round(q, 2)`: round to two decimal places. -/
def round2 (q : ℚ) : ℚ :=
  (roundHalfEven (q * 100) : ℚ) / 100

/-- A rational is representable with two decimal places: one hundred
times it is an integer. -/
def isRounded2 (q : ℚ) : Prop :=
  ∃ n : ℤ, q * 100 = (n : ℚ)

/-- The milestone task types excluded from the missing-logic metric. -/
def milestone_types : List String := ["TT_FinMile", "TT_Mile"]

/-- Activities that are not start or finish milestones. -/
def regularActivities (activities : List Activity) : List Activity :=
  activities.filter (fun a => decide (a.task_type ∉ milestone_types))

/-- Count of regular activities without predecessors. -/
def without_pred_count (activities : List Activity) : ℕ :=
  (regularActivities activities).countP (fun a => a.predecessors.isEmpty)

/-- Count of regular activities without successors. -/
def without_succ_count (activities : List Activity) : ℕ :=
  (regularActivities activities).countP (fun a => a.successors.isEmpty)

/-- Count of activities with truthy total float above 44 days. -/
def high_float_count (activities : List Activity) : ℕ :=
  activities.countP (fun a => truthyAnd a.total_float (fun x => decide (x > 44)))

/-- Count of activities with truthy negative total float. -/
def neg_float_count (activities : List Activity) : ℕ :=
  activities.countP (fun a => truthyAnd a.total_float (fun x => decide (x < 0)))

/-- Count of activities with truthy duration above 44 days. -/
def high_duration_count (activities : List Activity) : ℕ :=
  activities.countP (fun a => truthyAnd a.duration (fun x => decide (x > 44)))

/-- Count of activities with a truthy constraint type other than CS_ASAP. -/
def constrained_count (activities : List Activity) : ℕ :=
  activities.countP (fun a => truthyAndS a.constraint_type (fun s => !(s == "CS_ASAP")))

/-- Count of activities with both dates present and start after finish. -/
def invalid_dates_count (activities : List Activity) : ℕ :=
  activities.countP (fun a =>
    match a.start, a.finish with
    | some s, some f => decide (s > f)
    | _, _ => false)

/-- Count of activities with a truthy, nonempty resource list. -/
def resources_count (activities : List Activity) : ℕ :=
  activities.countP (fun a => !a.resources.isEmpty && decide (a.resources.length > 0))

/-- Number of predecessor relationships across all activities. -/
def total_relationships (activities : List Activity) : ℕ :=
  (activities.map (fun a => a.predecessors.length)).sum

/-- Number of predecessor relationships with truthy negative lag (leads). -/
def lead_count (activities : List Activity) : ℕ :=
  (activities.map (fun a =>
    a.predecessors.countP (fun r => truthyAnd r.lag (fun l => decide (l < 0))))).sum

/-- Number of predecessor relationships with truthy lag above 20 days. -/
def lag_count (activities : List Activity) : ℕ :=
  (activities.map (fun a =>
    a.predecessors.countP (fun r => truthyAnd r.lag (fun l => decide (l > 20))))).sum

/-- Number of predecessor relationships whose link type is not PR_FS. -/
def non_fs_count (activities : List Activity) : ℕ :=
  (activities.map (fun a => a.predecessors.countP (fun r => !(r.link == "PR_FS")))).sum

structure LogicResult where
  score : ℚ
  tasksWithoutPredecessors : ℕ
  tasksWithoutSuccessors : ℕ
  totalTasks : ℕ
deriving DecidableEq, Repr

structure HighFloatResult where
  score : ℚ
  highFloatTasks : ℕ
  threshold : ℕ
  totalTasks : ℕ
deriving DecidableEq, Repr

structure NegativeFloatResult where
  score : ℚ
  negativeFloatTasks : ℕ
  totalTasks : ℕ
deriving DecidableEq, Repr

structure HighDurationResult where
  score : ℚ
  highDurationTasks : ℕ
  threshold : ℕ
  totalTasks : ℕ
deriving DecidableEq, Repr

structure HardConstraintsResult where
  score : ℚ
  constrainedTasks : ℕ
  totalTasks : ℕ
deriving DecidableEq, Repr

structure LeadsResult where
  score : ℚ
  leadsFound : ℕ
  totalRelationships : ℕ
deriving DecidableEq, Repr

structure LagsResult where
  score : ℚ
  excessiveLags : ℕ
  threshold : ℕ
deriving DecidableEq, Repr

structure RelationshipTypesResult where
  score : ℚ
  nonFSRelationships : ℕ
  totalRelationships : ℕ
deriving DecidableEq, Repr

structure InvalidDatesResult where
  score : ℚ
  invalidDates : ℕ
  totalTasks : ℕ
deriving DecidableEq, Repr

structure ResourcesResult where
  score : ℚ
  tasksWithResources : ℕ
  totalTasks : ℕ
  resourceAssignmentRate : ℚ
deriving DecidableEq, Repr

/-- Embedding of `DCMAAnalyzer._analyze_missing_logic`. -/
def analyze_missing_logic (activities : List Activity) : LogicResult :=
  { score := round2 (if 0 < (regularActivities activities).length then
      max 0 (100 - ((without_pred_count activities : ℚ) + without_succ_count activities)
        / (regularActivities activities).length * 100)
    else 0),
    tasksWithoutPredecessors := without_pred_count activities,
    tasksWithoutSuccessors := without_succ_count activities,
    totalTasks := (regularActivities activities).length }

/-- Embedding of `DCMAAnalyzer._analyze_high_float`. -/
def analyze_high_float (activities : List Activity) : HighFloatResult :=
  { score := round2 (if 0 < activities.length then
      max 0 (100 - (high_float_count activities : ℚ) / activities.length * 100)
    else 0),
    highFloatTasks := high_float_count activities,
    threshold := 44,
    totalTasks := activities.length }

/-- Embedding of `DCMAAnalyzer._analyze_negative_float`. -/
def analyze_negative_float (activities : List Activity) : NegativeFloatResult :=
  { score := round2 (if neg_float_count activities = 0 then 100
    else max 0 (100 - (neg_float_count activities : ℚ) / activities.length * 200)),
    negativeFloatTasks := neg_float_count activities,
    totalTasks := activities.length }

/-- Embedding of `DCMAAnalyzer._analyze_high_duration`. -/
def analyze_high_duration (activities : List Activity) : HighDurationResult :=
  { score := round2 (if 0 < activities.length then
      max 0 (100 - (high_duration_count activities : ℚ) / activities.length * 100)
    else 0),
    highDurationTasks := high_duration_count activities,
    threshold := 44,
    totalTasks := activities.length }

/-- Embedding of `DCMAAnalyzer._analyze_hard_constraints`. -/
def analyze_hard_constraints (activities : List Activity) : HardConstraintsResult :=
  { score := round2 (if 0 < activities.length then
      max 0 (100 - (constrained_count activities : ℚ) / activities.length * 100)
    else 0),
    constrainedTasks := constrained_count activities,
    totalTasks := activities.length }

/-- Embedding of `DCMAAnalyzer._analyze_leads`. -/
def analyze_leads (activities : List Activity) : LeadsResult :=
  { score := round2 (if 0 < total_relationships activities then
      max 0 (100 - (lead_count activities : ℚ) / total_relationships activities * 100)
    else 100),
    leadsFound := lead_count activities,
    totalRelationships := total_relationships activities }

/-- Embedding of `DCMAAnalyzer._analyze_lags`. -/
def analyze_lags (activities : List Activity) : LagsResult :=
  { score := round2 (if 0 < total_relationships activities then
      max 0 (100 - (lag_count activities : ℚ) / total_relationships activities * 100)
    else 100),
    excessiveLags := lag_count activities,
    threshold := 20 }

/-- Embedding of `DCMAAnalyzer._analyze_relationship_types`. -/
def analyze_relationship_types (activities : List Activity) : RelationshipTypesResult :=
  { score := round2 (if 0 < total_relationships activities then
      max 0 (100 - (non_fs_count activities : ℚ) / total_relationships activities * 50)
    else 100),
    nonFSRelationships := non_fs_count activities,
    totalRelationships := total_relationships activities }

/-- Embedding of `DCMAAnalyzer._analyze_invalid_dates`. -/
def analyze_invalid_dates (activities : List Activity) : InvalidDatesResult :=
  { score := round2 (if invalid_dates_count activities = 0 then 100
    else max 0 (100 - (invalid_dates_count activities : ℚ) / activities.length * 200)),
    invalidDates := invalid_dates_count activities,
    totalTasks := activities.length }

/-- Rate of activities with resource assignments, guarded on a nonempty list. -/
def resource_rate (activities : List Activity) : ℚ :=
  if 0 < activities.length then
    (resources_count activities : ℚ) / activities.length * 100
  else 0

/-- Embedding of `DCMAAnalyzer._analyze_resources`. -/
def analyze_resources (activities : List Activity) : ResourcesResult :=
  { score := round2 (resource_rate activities),
    tasksWithResources := resources_count activities,
    totalTasks := activities.length,
    resourceAssignmentRate := round2 (resource_rate activities) }

/-- The mapping metric-name to metric result that `analyze` assembles, in
the insertion order of the source dictionary. -/
structure Metrics where
  logic : LogicResult
  leads : LeadsResult
  lags : LagsResult
  relationshipTypes : RelationshipTypesResult
  hardConstraints : HardConstraintsResult
  highFloat : HighFloatResult
  negativeFloat : NegativeFloatResult
  highDuration : HighDurationResult
  invalidDates : InvalidDatesResult
  resources : ResourcesResult
deriving DecidableEq, Repr

/-- Run the ten metric computations on an activity list. -/
def metricsOf (activities : List Activity) : Metrics :=
  { logic := analyze_missing_logic activities,
    leads := analyze_leads activities,
    lags := analyze_lags activities,
    relationshipTypes := analyze_relationship_types activities,
    hardConstraints := analyze_hard_constraints activities,
    highFloat := analyze_high_float activities,
    negativeFloat := analyze_negative_float activities,
    highDuration := analyze_high_duration activities,
    invalidDates := analyze_invalid_dates activities,
    resources := analyze_resources activities }

/-- The list of the ten metric scores in dictionary order.  Every metric
result carries a score field, so the source default of 0 for a result
without a score never applies. -/
def overall_scores (m : Metrics) : List ℚ :=
  [m.logic.score, m.leads.score, m.lags.score, m.relationshipTypes.score,
   m.hardConstraints.score, m.highFloat.score, m.negativeFloat.score,
   m.highDuration.score, m.invalidDates.score, m.resources.score]

/-- One actionable recommendation entry. -/
structure Recommendation where
  category : String
  priority : String
  message : String
  action : String
deriving DecidableEq, Repr

/-- Embedding of `DCMAAnalyzer._generate_recommendations`.  Numeric string
interpolation is abstracted by `toString`. -/
def generate_recommendations (metrics : Metrics) : List Recommendation :=
  (if metrics.logic.score < 80 then
    [{ category := "Logic", priority := "high",
       message := toString (metrics.logic.tasksWithoutPredecessors
         + metrics.logic.tasksWithoutSuccessors) ++ " activities missing logic relationships",
       action := "Add predecessor and successor relationships to all activities" }]
  else []) ++
  (if metrics.negativeFloat.negativeFloatTasks > 0 then
    [{ category := "Schedule", priority := "high",
       message := toString metrics.negativeFloat.negativeFloatTasks
         ++ " activities have negative float",
       action := "Review and adjust schedule to resolve negative float" }]
  else []) ++
  (if metrics.highFloat.score < 70 then
    [{ category := "Float", priority := "medium",
       message := toString metrics.highFloat.highFloatTasks
         ++ " activities have excessive float (>" ++ toString metrics.highFloat.threshold
         ++ " days)",
       action := "Review task dependencies and network logic" }]
  else []) ++
  (if metrics.highDuration.score < 70 then
    [{ category := "Duration", priority := "medium",
       message := toString metrics.highDuration.highDurationTasks
         ++ " activities exceed " ++ toString metrics.highDuration.threshold ++ " days",
       action := "Break down long-duration activities into smaller tasks" }]
  else []) ++
  (if metrics.hardConstraints.score < 85 then
    [{ category := "Constraints", priority := "medium",
       message := toString metrics.hardConstraints.constrainedTasks
         ++ " activities have hard constraints",
       action := "Review and minimize use of hard constraints" }]
  else []) ++
  (if metrics.resources.score < 50 then
    [{ category := "Resources", priority := "low",
       message := "Only " ++ toString metrics.resources.resourceAssignmentRate
         ++ "% of activities have resource assignments",
       action := "Improve resource loading and assignment" }]
  else [])

/-- Summary block of a successful analysis.  The analysis timestamp is a
wall-clock value outside the pure computation and is not modelled. -/
structure Summary where
  totalActivities : ℕ
  criticalIssues : ℕ
deriving DecidableEq, Repr

/-- Result of `DCMAAnalyzer.analyze`: either the error dictionary for an
empty activity list (which carries no metrics, recommendations or summary)
or the full result. -/
inductive AnalysisResult where
  | err (message : String)
  | ok (metrics : Metrics) (overallScore : ℚ) (recommendations : List Recommendation)
      (summary : Summary)
deriving DecidableEq, Repr

/-- Embedding of `DCMAAnalyzer.analyze`. -/
def analyze (activities : List Activity) : AnalysisResult :=
  if activities.isEmpty then
    .err "No activities found in XER file"
  else
    let metrics := metricsOf activities
    let scores := overall_scores metrics
    let overall_score : ℚ := if scores.isEmpty then 0 else scores.sum / (scores.length : ℚ)
    let recommendations := generate_recommendations metrics
    .ok metrics overall_score recommendations
      { totalActivities := activities.length,
        criticalIssues := (recommendations.filter (fun r => r.priority == "high")).length }

def getMetrics : AnalysisResult → Option Metrics
  | .err _ => none
  | .ok m _ _ _ => some m

def getOverall : AnalysisResult → Option ℚ
  | .err _ => none
  | .ok _ o _ _ => some o

def getRecommendations : AnalysisResult → Option (List Recommendation)
  | .err _ => none
  | .ok _ _ r _ => some r

def getSummary : AnalysisResult → Option Summary
  | .err _ => none
  | .ok _ _ _ s => some s

def getMessage : AnalysisResult → Option String
  | .err msg => some msg
  | .ok _ _ _ _ => none

/-- Invalid-Dates score as the specification words it: the denominator is
the number of activities with both start and finish present, not the
length of the whole activity list. -/
def spec_invalid_dates_score (activities : List Activity) : ℚ :=
  round2 (if invalid_dates_count activities = 0 then 100
    else max 0 (100 - (invalid_dates_count activities : ℚ)
      / (activities.countP (fun a => a.start.isSome && a.finish.isSome)) * 200))

/-- A Finish-Start relationship with no lag, used in concrete schedules. -/
def relFS : Relationship := { link := "PR_FS", lag := none }

/-- A Start-Start relationship with no lag. -/
def relSS : Relationship := { link := "PR_SS", lag := none }

/-- A plain task with every optional field absent and no relationships. -/
def blankActivity : Activity :=
  { task_type := "TT_Task", duration := none, total_float := none,
    constraint_type := none, start := none, finish := none,
    predecessors := [], successors := [], resources := [] }

/-- A task with one predecessor and one successor relationship. -/
def linkedActivity : Activity :=
  { blankActivity with predecessors := [relFS], successors := [relFS] }

/-- A task with a successor but no predecessors. -/
def noPredActivity : Activity :=
  { blankActivity with successors := [relFS] }

/-- A start milestone with no relationships. -/
def mileActivity : Activity :=
  { blankActivity with task_type := "TT_Mile" }

/-- A task with negative total float. -/
def negFloatActivity : Activity :=
  { blankActivity with total_float := some (-5) }

/-- A task with high total float and high duration. -/
def floatActivity : Activity :=
  { blankActivity with total_float := some 50, duration := some 50 }

/-- A task whose start is after its finish. -/
def invalidActivity : Activity :=
  { blankActivity with start := some 1, finish := some 0 }

/-- Three activities, one of which has inconsistent dates and two of which
have no dates at all. -/
def datesExample : List Activity := [invalidActivity, blankActivity, blankActivity]

/-- Three linked tasks, exactly one of them without a predecessor. -/
def meanExample : List Activity := [noPredActivity, linkedActivity, linkedActivity]

/-- One negative-float task among 40001 activities. -/
def hugeExample : List Activity := negFloatActivity :: List.replicate 40000 blankActivity

/-- Ten activities: two milestones, six linked tasks, two tasks missing a
predecessor. -/
def scenarioAExample : List Activity :=
  List.replicate 2 mileActivity ++ List.replicate 6 linkedActivity
    ++ List.replicate 2 noPredActivity

/-- A concrete metrics mapping with Missing-Logic score 60 and three
negative-float tasks. -/
def metricsE : Metrics :=
  { logic := { score := 60, tasksWithoutPredecessors := 4, tasksWithoutSuccessors := 0,
               totalTasks := 10 },
    leads := { score := 100, leadsFound := 0, totalRelationships := 5 },
    lags := { score := 100, excessiveLags := 0, threshold := 20 },
    relationshipTypes := { score := 100, nonFSRelationships := 0, totalRelationships := 5 },
    hardConstraints := { score := 100, constrainedTasks := 0, totalTasks := 10 },
    highFloat := { score := 100, highFloatTasks := 0, threshold := 44, totalTasks := 10 },
    negativeFloat := { score := 40, negativeFloatTasks := 3, totalTasks := 10 },
    highDuration := { score := 100, highDurationTasks := 0, threshold := 44, totalTasks := 10 },
    invalidDates := { score := 100, invalidDates := 0, totalTasks := 10 },
    resources := { score := 100, tasksWithResources := 10, totalTasks := 10,
                   resourceAssignmentRate := 100 } }

theorem roundHalfEven_cases (q : ℚ) :
    roundHalfEven q = Int.floor q ∨ roundHalfEven q = Int.floor q + 1 := by
  simp only [roundHalfEven]
  split_ifs <;> simp

theorem floor_le_roundHalfEven (q : ℚ) : Int.floor q ≤ roundHalfEven q := by
  rcases roundHalfEven_cases q with h | h <;> omega

theorem int_le_roundHalfEven {n : ℤ} {q : ℚ} (h : (n : ℚ) ≤ q) : n ≤ roundHalfEven q :=
  le_trans (Int.le_floor.mpr h) (floor_le_roundHalfEven q)

theorem roundHalfEven_le_int {n : ℤ} {q : ℚ} (h : q ≤ (n : ℚ)) : roundHalfEven q ≤ n := by
  have hfq : (Int.floor q : ℚ) ≤ q := Int.floor_le q
  have hfl : Int.floor q ≤ n := by
    have := Int.floor_le_floor h
    rwa [Int.floor_intCast] at this
  simp only [roundHalfEven]
  split_ifs with h1 h2 h3
  · exact hfl
  · have hc : (Int.floor q : ℚ) < (n : ℚ) := by linarith
    have : Int.floor q < n := by exact_mod_cast hc
    omega
  · exact hfl
  · have hc : (Int.floor q : ℚ) < (n : ℚ) := by
      have : (1 : ℚ)/2 ≤ q - Int.floor q := not_lt.mp h1
      linarith
    have : Int.floor q < n := by exact_mod_cast hc
    omega

theorem roundHalfEven_lt_int {n : ℤ} {q : ℚ} (h : q < (n : ℚ) - 1/2) : roundHalfEven q < n := by
  have hfq : (Int.floor q : ℚ) ≤ q := Int.floor_le q
  have hfl : Int.floor q < n := by
    have hc : (Int.floor q : ℚ) < (n : ℚ) := by linarith
    exact_mod_cast hc
  simp only [roundHalfEven]
  split_ifs with h1 h2 h3
  · exact hfl
  · have hc : (Int.floor q : ℚ) < (n : ℚ) - 1 := by
      have : (1 : ℚ)/2 ≤ q - Int.floor q := not_lt.mp h1
      linarith
    have : Int.floor q < n - 1 := by exact_mod_cast hc
    omega
  · exact hfl
  · have hc : (Int.floor q : ℚ) < (n : ℚ) - 1 := by
      have : (1 : ℚ)/2 ≤ q - Int.floor q := not_lt.mp h1
      linarith
    have : Int.floor q < n - 1 := by exact_mod_cast hc
    omega

theorem le_round2 {n : ℤ} {q : ℚ} (h : (n : ℚ) ≤ q) : (n : ℚ) ≤ round2 q := by
  unfold round2
  rw [le_div_iff₀ (by norm_num : (0:ℚ) < 100)]
  have hle : n * 100 ≤ roundHalfEven (q * 100) := by
    apply int_le_roundHalfEven
    push_cast
    linarith
  exact_mod_cast hle

theorem round2_le {n : ℤ} {q : ℚ} (h : q ≤ (n : ℚ)) : round2 q ≤ (n : ℚ) := by
  unfold round2
  rw [div_le_iff₀ (by norm_num : (0:ℚ) < 100)]
  have hle : roundHalfEven (q * 100) ≤ n * 100 := by
    apply roundHalfEven_le_int
    push_cast
    linarith
  exact_mod_cast hle

theorem round2_lt {n : ℤ} {q : ℚ} (h : q * 100 < (n : ℚ) * 100 - 1/2) : round2 q < (n : ℚ) := by
  unfold round2
  rw [div_lt_iff₀ (by norm_num : (0:ℚ) < 100)]
  have hlt : roundHalfEven (q * 100) < n * 100 := by
    apply roundHalfEven_lt_int
    push_cast
    linarith
  exact_mod_cast hlt

theorem isRounded2_round2 (q : ℚ) : isRounded2 (round2 q) :=
  ⟨roundHalfEven (q * 100), by
    rw [round2, div_mul_cancel₀ _ (by norm_num : (100:ℚ) ≠ 0)]⟩

theorem round2_bounds {s : ℚ} (h0 : 0 ≤ s) (h1 : s ≤ 100) :
    0 ≤ round2 s ∧ round2 s ≤ 100 := by
  constructor
  · have h := le_round2 (n := 0) (q := s) (by exact_mod_cast h0)
    simpa using h
  · have h := round2_le (n := 100) (q := s) (by exact_mod_cast h1)
    simpa using h

theorem round2_zero : round2 0 = 0 := by norm_num [round2, roundHalfEven]

theorem round2_hundred : round2 100 = 100 := by norm_num [round2, roundHalfEven]

theorem count_ratio_nonneg (c t : ℕ) (m : ℚ) (hm : 0 ≤ m) : 0 ≤ (c : ℚ) / t * m :=
  mul_nonneg (div_nonneg (Nat.cast_nonneg c) (Nat.cast_nonneg t)) hm

theorem score_shape_bounds {k : ℚ} (hk : 0 ≤ k) :
    0 ≤ round2 (max 0 (100 - k)) ∧ round2 (max 0 (100 - k)) ≤ 100 :=
  round2_bounds (le_max_left 0 _) (max_le (by norm_num) (by linarith))

theorem ratio_nonneg {a b m : ℚ} (ha : 0 ≤ a) (hb : 0 ≤ b) (hm : 0 ≤ m) :
    0 ≤ a / b * m :=
  mul_nonneg (div_nonneg ha hb) hm

theorem missing_logic_score_bounds (l : List Activity) :
    0 ≤ (analyze_missing_logic l).score ∧ (analyze_missing_logic l).score ≤ 100 := by
  simp only [analyze_missing_logic]
  split_ifs with h
  · exact score_shape_bounds (ratio_nonneg (by positivity) (Nat.cast_nonneg _) (by norm_num))
  · rw [round2_zero]; norm_num

theorem high_float_score_bounds (l : List Activity) :
    0 ≤ (analyze_high_float l).score ∧ (analyze_high_float l).score ≤ 100 := by
  simp only [analyze_high_float]
  split_ifs with h
  · exact score_shape_bounds (ratio_nonneg (Nat.cast_nonneg _) (Nat.cast_nonneg _) (by norm_num))
  · rw [round2_zero]; norm_num

theorem negative_float_score_bounds (l : List Activity) :
    0 ≤ (analyze_negative_float l).score ∧ (analyze_negative_float l).score ≤ 100 := by
  simp only [analyze_negative_float]
  split_ifs with h
  · rw [round2_hundred]; norm_num
  · exact score_shape_bounds (ratio_nonneg (Nat.cast_nonneg _) (Nat.cast_nonneg _) (by norm_num))

theorem high_duration_score_bounds (l : List Activity) :
    0 ≤ (analyze_high_duration l).score ∧ (analyze_high_duration l).score ≤ 100 := by
  simp only [analyze_high_duration]
  split_ifs with h
  · exact score_shape_bounds (ratio_nonneg (Nat.cast_nonneg _) (Nat.cast_nonneg _) (by norm_num))
  · rw [round2_zero]; norm_num

theorem hard_constraints_score_bounds (l : List Activity) :
    0 ≤ (analyze_hard_constraints l).score ∧ (analyze_hard_constraints l).score ≤ 100 := by
  simp only [analyze_hard_constraints]
  split_ifs with h
  · exact score_shape_bounds (ratio_nonneg (Nat.cast_nonneg _) (Nat.cast_nonneg _) (by norm_num))
  · rw [round2_zero]; norm_num

theorem leads_score_bounds (l : List Activity) :
    0 ≤ (analyze_leads l).score ∧ (analyze_leads l).score ≤ 100 := by
  simp only [analyze_leads]
  split_ifs with h
  · exact score_shape_bounds (ratio_nonneg (Nat.cast_nonneg _) (Nat.cast_nonneg _) (by norm_num))
  · rw [round2_hundred]; norm_num

theorem lags_score_bounds (l : List Activity) :
    0 ≤ (analyze_lags l).score ∧ (analyze_lags l).score ≤ 100 := by
  simp only [analyze_lags]
  split_ifs with h
  · exact score_shape_bounds (ratio_nonneg (Nat.cast_nonneg _) (Nat.cast_nonneg _) (by norm_num))
  · rw [round2_hundred]; norm_num

theorem relationship_types_score_bounds (l : List Activity) :
    0 ≤ (analyze_relationship_types l).score ∧
      (analyze_relationship_types l).score ≤ 100 := by
  simp only [analyze_relationship_types]
  split_ifs with h
  · exact score_shape_bounds (ratio_nonneg (Nat.cast_nonneg _) (Nat.cast_nonneg _) (by norm_num))
  · rw [round2_hundred]; norm_num

theorem invalid_dates_score_bounds (l : List Activity) :
    0 ≤ (analyze_invalid_dates l).score ∧ (analyze_invalid_dates l).score ≤ 100 := by
  simp only [analyze_invalid_dates]
  split_ifs with h
  · rw [round2_hundred]; norm_num
  · exact score_shape_bounds (ratio_nonneg (Nat.cast_nonneg _) (Nat.cast_nonneg _) (by norm_num))

theorem resource_rate_bounds (l : List Activity) :
    0 ≤ resource_rate l ∧ resource_rate l ≤ 100 := by
  unfold resource_rate
  split_ifs with h
  · constructor
    · exact ratio_nonneg (Nat.cast_nonneg _) (Nat.cast_nonneg _) (by norm_num)
    · have hc : (resources_count l : ℚ) ≤ (l.length : ℚ) := by
        exact_mod_cast List.countP_le_length _
      have ht : (0 : ℚ) < (l.length : ℚ) := by exact_mod_cast h
      have hdiv : (resources_count l : ℚ) / (l.length : ℚ) ≤ 1 :=
        (div_le_one ht).mpr hc
      nlinarith
  · norm_num

theorem resources_score_bounds (l : List Activity) :
    0 ≤ (analyze_resources l).score ∧ (analyze_resources l).score ≤ 100 := by
  simp only [analyze_resources]
  exact round2_bounds (resource_rate_bounds l).1 (resource_rate_bounds l).2

/-- Claim C2: for every activity list each of the ten metric scores lies in
[0, 100], and a zero denominator yields the metric-specific fallback score
(0 for Missing Logic, Hard Constraints, High Float, High Duration and
Resources; 100 for Leads, Lags and Relationship Types) instead of a
division failure: in the embedding, as in the source, the division branch
sits under an explicit positive-denominator guard. -/
theorem metric_scores_bounded_and_fallbacks (l : List Activity) :
    ((0 ≤ (analyze_missing_logic l).score ∧ (analyze_missing_logic l).score ≤ 100) ∧
     (0 ≤ (analyze_leads l).score ∧ (analyze_leads l).score ≤ 100) ∧
     (0 ≤ (analyze_lags l).score ∧ (analyze_lags l).score ≤ 100) ∧
     (0 ≤ (analyze_relationship_types l).score ∧
       (analyze_relationship_types l).score ≤ 100) ∧
     (0 ≤ (analyze_hard_constraints l).score ∧ (analyze_hard_constraints l).score ≤ 100) ∧
     (0 ≤ (analyze_high_float l).score ∧ (analyze_high_float l).score ≤ 100) ∧
     (0 ≤ (analyze_negative_float l).score ∧ (analyze_negative_float l).score ≤ 100) ∧
     (0 ≤ (analyze_high_duration l).score ∧ (analyze_high_duration l).score ≤ 100) ∧
     (0 ≤ (analyze_invalid_dates l).score ∧ (analyze_invalid_dates l).score ≤ 100) ∧
     (0 ≤ (analyze_resources l).score ∧ (analyze_resources l).score ≤ 100)) ∧
    ((regularActivities l).length = 0 → (analyze_missing_logic l).score = 0) ∧
    (total_relationships l = 0 →
      (analyze_leads l).score = 100 ∧ (analyze_lags l).score = 100 ∧
      (analyze_relationship_types l).score = 100) ∧
    (l = [] →
      (analyze_hard_constraints l).score = 0 ∧ (analyze_high_float l).score = 0 ∧
      (analyze_high_duration l).score = 0 ∧ (analyze_resources l).score = 0) := by
  refine ⟨⟨missing_logic_score_bounds l, leads_score_bounds l, lags_score_bounds l,
      relationship_types_score_bounds l, hard_constraints_score_bounds l,
      high_float_score_bounds l, negative_float_score_bounds l,
      high_duration_score_bounds l, invalid_dates_score_bounds l,
      resources_score_bounds l⟩, ?_, ?_, ?_⟩
  · intro h
    simp [analyze_missing_logic, h, round2_zero]
  · intro h
    refine ⟨?_, ?_, ?_⟩ <;>
      simp [analyze_leads, analyze_lags, analyze_relationship_types, h, round2_hundred]
  · intro h
    subst h
    refine ⟨?_, ?_, ?_, ?_⟩ <;>
      simp [analyze_hard_constraints, analyze_high_float, analyze_high_duration,
        analyze_resources, resource_rate, round2_zero]

/-- Witness for C2 at two concrete inputs: a single milestone activity
(no regular activities, no relationships) and the empty list. -/
theorem metric_scores_bounded_and_fallbacks_witness :
    (0 ≤ (analyze_missing_logic [mileActivity]).score) ∧
    ((analyze_missing_logic [mileActivity]).score = 0) ∧
    ((analyze_leads [mileActivity]).score = 100) ∧
    ((analyze_relationship_types [mileActivity]).score = 100) ∧
    ((analyze_high_float ([] : List Activity)).score = 0) ∧
    ((analyze_resources ([] : List Activity)).score = 0) := by
  have h1 := metric_scores_bounded_and_fallbacks [mileActivity]
  have h2 := metric_scores_bounded_and_fallbacks ([] : List Activity)
  obtain ⟨⟨b1, _⟩, f1, f2, _⟩ := h1
  obtain ⟨_, _, _, f3⟩ := h2
  have hreg : (regularActivities [mileActivity]).length = 0 := by decide
  have hrel : total_relationships [mileActivity] = 0 := by decide
  obtain ⟨e1, _, e2⟩ := f2 hrel
  obtain ⟨_, e3, _, e4⟩ := f3 rfl
  exact ⟨b1.1, f1 hreg, e1, e2, e3, e4⟩

set_option maxRecDepth 4000 in
/-- Claim C3: on an empty flattened activity list, `analyze` returns a
structured error whose message begins with the words No activities found,
and the result carries no metrics, recommendations or summary. -/
theorem analyze_empty_returns_error :
    analyze [] = AnalysisResult.err "No activities found in XER file" ∧
    ("No activities found in XER file").take 19 = "No activities found" ∧
    getMetrics (analyze []) = none ∧
    getRecommendations (analyze []) = none ∧
    getSummary (analyze []) = none := by
  refine ⟨rfl, by decide, rfl, rfl, rfl⟩

/-- Claim C4: for a non-empty activity list, `analyze` reports the
unweighted arithmetic mean of the ten per-metric scores as the overall
score (every metric result carries a score, so the source default of 0
for a missing score never fires), and the summary holds the activity
count and the number of high-priority recommendations. -/
theorem analyze_overall_mean_and_summary (l : List Activity) (h : l ≠ []) :
    getMetrics (analyze l) = some (metricsOf l) ∧
    getOverall (analyze l) = some
      (((metricsOf l).logic.score + (metricsOf l).leads.score + (metricsOf l).lags.score +
        (metricsOf l).relationshipTypes.score + (metricsOf l).hardConstraints.score +
        (metricsOf l).highFloat.score + (metricsOf l).negativeFloat.score +
        (metricsOf l).highDuration.score + (metricsOf l).invalidDates.score +
        (metricsOf l).resources.score) / 10) ∧
    getRecommendations (analyze l) = some (generate_recommendations (metricsOf l)) ∧
    getSummary (analyze l) = some
      { totalActivities := l.length,
        criticalIssues := ((generate_recommendations (metricsOf l)).filter
          (fun r => r.priority == "high")).length } := by
  have hne : l.isEmpty = false := by simpa [List.isEmpty_iff] using h
  simp only [analyze, hne, Bool.false_eq_true, if_false]
  refine ⟨rfl, ?_, rfl, rfl⟩
  simp only [getOverall, overall_scores, Option.some.injEq, List.sum_cons, List.sum_nil,
    List.isEmpty_cons, List.length_cons, List.length_nil]
  norm_num
  ring

/-- Witness for C4 on a one-activity schedule. -/
theorem analyze_overall_mean_and_summary_witness :
    getMetrics (analyze [linkedActivity]) = some (metricsOf [linkedActivity]) ∧
    getOverall (analyze [linkedActivity]) = some
      (((metricsOf [linkedActivity]).logic.score + (metricsOf [linkedActivity]).leads.score +
        (metricsOf [linkedActivity]).lags.score +
        (metricsOf [linkedActivity]).relationshipTypes.score +
        (metricsOf [linkedActivity]).hardConstraints.score +
        (metricsOf [linkedActivity]).highFloat.score +
        (metricsOf [linkedActivity]).negativeFloat.score +
        (metricsOf [linkedActivity]).highDuration.score +
        (metricsOf [linkedActivity]).invalidDates.score +
        (metricsOf [linkedActivity]).resources.score) / 10) ∧
    getRecommendations (analyze [linkedActivity]) =
      some (generate_recommendations (metricsOf [linkedActivity])) ∧
    getSummary (analyze [linkedActivity]) = some
      { totalActivities := [linkedActivity].length,
        criticalIssues := ((generate_recommendations (metricsOf [linkedActivity])).filter
          (fun r => r.priority == "high")).length } :=
  analyze_overall_mean_and_summary [linkedActivity] (by simp)

theorem getOverall_analyze (l : List Activity) (h : l.isEmpty = false) :
    getOverall (analyze l) = some ((overall_scores (metricsOf l)).sum / 10) := by
  simp only [analyze, h, Bool.false_eq_true, if_false, getOverall, Option.some.injEq]
  simp [overall_scores]

/-- Claim C5 (amended): each of the ten per-metric scores is rounded to
two decimal places; the overall score is the plain mean of the rounded
metric scores and is not itself rounded (see the counterexample). -/
theorem metric_scores_are_rounded (l : List Activity) :
    isRounded2 (analyze_missing_logic l).score ∧
    isRounded2 (analyze_leads l).score ∧
    isRounded2 (analyze_lags l).score ∧
    isRounded2 (analyze_relationship_types l).score ∧
    isRounded2 (analyze_hard_constraints l).score ∧
    isRounded2 (analyze_high_float l).score ∧
    isRounded2 (analyze_negative_float l).score ∧
    isRounded2 (analyze_high_duration l).score ∧
    isRounded2 (analyze_invalid_dates l).score ∧
    isRounded2 (analyze_resources l).score := by
  exact ⟨isRounded2_round2 _, isRounded2_round2 _, isRounded2_round2 _,
    isRounded2_round2 _, isRounded2_round2 _, isRounded2_round2 _, isRounded2_round2 _,
    isRounded2_round2 _, isRounded2_round2 _, isRounded2_round2 _⟩

/-- Counterexample for C5: on a concrete three-activity schedule the
overall score is 86.667, which is not a two-decimal value, so the overall
score is not rounded to 2 decimal places. -/
theorem overall_score_not_rounded_counterexample :
    getOverall (analyze meanExample) = some ((86667 : ℚ) / 1000) ∧
    ¬ isRounded2 ((86667 : ℚ) / 1000) := by
  constructor
  · rw [getOverall_analyze meanExample (by decide)]
    have c1 : without_pred_count meanExample = 1 := by decide
    have c2 : without_succ_count meanExample = 0 := by decide
    have c3 : (regularActivities meanExample).length = 3 := by decide
    have c4 : lead_count meanExample = 0 := by decide
    have c5 : lag_count meanExample = 0 := by decide
    have c6 : non_fs_count meanExample = 0 := by decide
    have c7 : total_relationships meanExample = 2 := by decide
    have c8 : constrained_count meanExample = 0 := by decide
    have c9 : high_float_count meanExample = 0 := by decide
    have c10 : neg_float_count meanExample = 0 := by decide
    have c11 : high_duration_count meanExample = 0 := by decide
    have c12 : invalid_dates_count meanExample = 0 := by decide
    have c13 : resources_count meanExample = 0 := by decide
    have c14 : meanExample.length = 3 := by decide
    simp only [overall_scores, metricsOf, analyze_missing_logic, analyze_leads,
      analyze_lags, analyze_relationship_types, analyze_hard_constraints,
      analyze_high_float, analyze_negative_float, analyze_high_duration,
      analyze_invalid_dates, analyze_resources, resource_rate,
      c1, c2, c3, c4, c5, c6, c7, c8, c9, c10, c11, c12, c13, c14,
      List.sum_cons, List.sum_nil]
    norm_num [round2, roundHalfEven, max_def]
  · rintro ⟨n, hn⟩
    have h10 : (86667 : ℚ) = (n : ℚ) * 10 := by
      field_simp at hn
      linarith
    have hz : (86667 : ℤ) = n * 10 := by exact_mod_cast h10
    omega

/-- Claim C1 (amended): the denominator of the Invalid Dates score is the
length of the full activity list, not the count of activities with both
dates present; the score is 100 when the numerator is 0 and otherwise
rounds max(0, 100 - numerator/length*200). -/
theorem invalid_dates_uses_full_list_denominator (l : List Activity) :
    (analyze_invalid_dates l).totalTasks = l.length ∧
    (analyze_invalid_dates l).score =
      (if invalid_dates_count l = 0 then 100
       else round2 (max 0 (100 - (invalid_dates_count l : ℚ) / l.length * 200))) := by
  refine ⟨rfl, ?_⟩
  simp only [analyze_invalid_dates]
  split_ifs with h
  · exact round2_hundred
  · rfl

/-- Counterexample for C1: with one invalid-date activity and two
activities carrying no dates, the code divides by all 3 activities and
scores 33.33, while the denominator the specification describes (the one
activity with both dates) would give 0. -/
theorem invalid_dates_spec_denominator_counterexample :
    (analyze_invalid_dates datesExample).score = 3333/100 ∧
    spec_invalid_dates_score datesExample = 0 ∧
    ((3333 : ℚ)/100) ≠ 0 := by
  refine ⟨?_, ?_, by norm_num⟩
  · have h1 : invalid_dates_count datesExample = 1 := by decide
    have h2 : datesExample.length = 3 := by decide
    simp only [analyze_invalid_dates, h1, h2]
    norm_num [round2, roundHalfEven, max_def]
  · have h1 : invalid_dates_count datesExample = 1 := by decide
    have h3 : datesExample.countP (fun a => a.start.isSome && a.finish.isSome) = 1 := by
      decide
    simp only [spec_invalid_dates_score, h1, h3]
    norm_num [round2, roundHalfEven, max_def]

theorem countP_replicate {α : Type} (p : α → Bool) (n : ℕ) (a : α) :
    (List.replicate n a).countP p = if p a then n else 0 := by
  induction n with
  | zero => simp
  | succ k ih =>
    rw [List.replicate_succ, List.countP_cons, ih]
    cases hpa : p a <;> simp [hpa]

theorem score200_lt_100 {c t : ℕ} (hc : c ≠ 0) (hct : c ≤ t) (ht : t ≤ 39999) :
    round2 (max 0 (100 - (c : ℚ) / t * 200)) < 100 := by
  have hc1 : (1 : ℚ) ≤ (c : ℚ) := by exact_mod_cast Nat.one_le_iff_ne_zero.mpr hc
  have ht0 : (0 : ℚ) < (t : ℚ) := by
    have : 1 ≤ t := le_trans (Nat.one_le_iff_ne_zero.mpr hc) hct
    exact_mod_cast this
  have ht39 : (t : ℚ) ≤ 39999 := by exact_mod_cast ht
  have hstep : (1 : ℚ) / 39999 ≤ 1 / (t : ℚ) :=
    one_div_le_one_div_of_le ht0 ht39
  have hfrac : (1 : ℚ) / 39999 ≤ (c : ℚ) / (t : ℚ) := by
    refine le_trans hstep ?_
    gcongr
  have hmax : max 0 (100 - (c : ℚ) / t * 200) * 100 < ((100 : ℤ) : ℚ) * 100 - 1/2 := by
    have hub : max 0 (100 - (c : ℚ) / t * 200) ≤ 100 - 200/39999 :=
      max_le (by norm_num) (by linarith)
    push_cast
    nlinarith
  have := round2_lt hmax
  simpa using this

/-- Claim C6 (amended): a zero numerator always gives score exactly 100
for the Negative-Float and Invalid-Dates metrics, and for every activity
list of at most 39999 activities the converse also holds; with more
activities a positive numerator can still round up to a score of 100. -/
theorem exact_hundred_iff_zero_count (l : List Activity) (h : l.length ≤ 39999) :
    ((analyze_negative_float l).score = 100 ↔ neg_float_count l = 0) ∧
    ((analyze_invalid_dates l).score = 100 ↔ invalid_dates_count l = 0) := by
  constructor
  · constructor
    · intro h100
      by_contra hne
      have hlt := score200_lt_100 hne (List.countP_le_length _) h
      simp only [analyze_negative_float, if_neg hne] at h100
      rw [h100] at hlt
      exact lt_irrefl _ hlt
    · intro h0
      simp only [analyze_negative_float, h0, if_pos rfl]
      exact round2_hundred
  · constructor
    · intro h100
      by_contra hne
      have hlt := score200_lt_100 hne (List.countP_le_length _) h
      simp only [analyze_invalid_dates, if_neg hne] at h100
      rw [h100] at hlt
      exact lt_irrefl _ hlt
    · intro h0
      simp only [analyze_invalid_dates, h0, if_pos rfl]
      exact round2_hundred

/-- Witness for C6 (amended) on a two-activity schedule holding one
negative-float task and one invalid-date task. -/
theorem exact_hundred_iff_zero_count_witness :
    ([negFloatActivity, invalidActivity] : List Activity).length ≤ 39999 ∧
    (((analyze_negative_float [negFloatActivity, invalidActivity]).score = 100 ↔
        neg_float_count [negFloatActivity, invalidActivity] = 0) ∧
     ((analyze_invalid_dates [negFloatActivity, invalidActivity]).score = 100 ↔
        invalid_dates_count [negFloatActivity, invalidActivity] = 0)) :=
  ⟨by decide, exact_hundred_iff_zero_count [negFloatActivity, invalidActivity] (by decide)⟩

/-- Counterexample for C6: among 40001 activities a single negative-float
task yields the pre-rounding score 100 - 200/40001, which rounds to
exactly 100.00, so a score of exactly 100 does not imply a zero count. -/
theorem hundred_score_with_positive_count_counterexample :
    (analyze_negative_float hugeExample).negativeFloatTasks = 1 ∧
    (analyze_negative_float hugeExample).score = 100 := by
  have hp1 : (truthyAnd negFloatActivity.total_float fun x => decide (x < 0)) = true := by
    decide
  have hp2 : (truthyAnd blankActivity.total_float fun x => decide (x < 0)) = false := by
    decide
  have hcount : neg_float_count hugeExample = 1 := by
    unfold neg_float_count hugeExample
    rw [List.countP_cons, countP_replicate, hp1, hp2]
    simp
  have hlen : hugeExample.length = 40001 := by
    unfold hugeExample
    rw [List.length_cons, List.length_replicate]
  simp only [analyze_negative_float]
  rw [hcount, hlen]
  refine ⟨rfl, ?_⟩
  norm_num [round2, roundHalfEven, max_def]

/-- Claim C7: a milestone-type activity with zero predecessors changes
nothing in the Missing Logic metric (it is in neither the numerator nor
the denominator), and any activity list with 8 regular activities, 2 of
them without predecessors and none without successors, scores
max(0, 100 - 2/8*100) = 75. -/
theorem missing_logic_milestone_exclusion (m : Activity) (l : List Activity)
    (hm : m.task_type ∈ milestone_types)
    (_hp : m.predecessors = [])
    (h8 : (regularActivities l).length = 8)
    (h2 : without_pred_count l = 2)
    (h0 : without_succ_count l = 0) :
    analyze_missing_logic (m :: l) = analyze_missing_logic l ∧
    (analyze_missing_logic l).tasksWithoutPredecessors = 2 ∧
    (analyze_missing_logic l).totalTasks = 8 ∧
    (analyze_missing_logic l).score = 75 := by
  have hreg : regularActivities (m :: l) = regularActivities l := by
    unfold regularActivities
    rw [List.filter_cons]
    simp [hm]
  refine ⟨?_, ?_, ?_, ?_⟩
  · simp only [analyze_missing_logic, without_pred_count, without_succ_count, hreg]
  · simp only [analyze_missing_logic]
    exact h2
  · simp only [analyze_missing_logic]
    exact h8
  · simp only [analyze_missing_logic, h8, h2, h0]
    norm_num [round2, roundHalfEven, max_def]

/-- Witness for C7: scenario A with ten activities, two of them
milestones, plus one extra milestone in front. -/
theorem missing_logic_milestone_exclusion_witness :
    analyze_missing_logic (mileActivity :: scenarioAExample) =
      analyze_missing_logic scenarioAExample ∧
    (analyze_missing_logic scenarioAExample).tasksWithoutPredecessors = 2 ∧
    (analyze_missing_logic scenarioAExample).totalTasks = 8 ∧
    (analyze_missing_logic scenarioAExample).score = 75 :=
  missing_logic_milestone_exclusion mileActivity scenarioAExample (by decide) (by decide)
    (by decide) (by decide) (by decide)

/-- Claim C9: an activity with absent total float is counted in neither
the High-Float nor the Negative-Float numerator, and an activity with
absent duration is not counted in the High-Duration numerator; absence is
not treated as zero. -/
theorem absent_fields_not_counted (a : Activity) (l : List Activity)
    (hf : a.total_float = none) (hd : a.duration = none) :
    (analyze_high_float (a :: l)).highFloatTasks = (analyze_high_float l).highFloatTasks ∧
    (analyze_negative_float (a :: l)).negativeFloatTasks
      = (analyze_negative_float l).negativeFloatTasks ∧
    (analyze_high_duration (a :: l)).highDurationTasks
      = (analyze_high_duration l).highDurationTasks := by
  refine ⟨?_, ?_, ?_⟩ <;>
    simp [analyze_high_float, analyze_negative_float, analyze_high_duration,
      high_float_count, neg_float_count, high_duration_count,
      List.countP_cons, truthyAnd, hf, hd]

/-- Witness for C9: a blank activity in front of one high-float,
high-duration activity leaves all three numerators at their old values. -/
theorem absent_fields_not_counted_witness :
    (analyze_high_float (blankActivity :: [floatActivity])).highFloatTasks
      = (analyze_high_float [floatActivity]).highFloatTasks ∧
    (analyze_negative_float (blankActivity :: [floatActivity])).negativeFloatTasks
      = (analyze_negative_float [floatActivity]).negativeFloatTasks ∧
    (analyze_high_duration (blankActivity :: [floatActivity])).highDurationTasks
      = (analyze_high_duration [floatActivity]).highDurationTasks :=
  absent_fields_not_counted blankActivity [floatActivity] rfl rfl

/-- Claim C10: with at least one predecessor relationship the
Relationship Types score lies in [50, 100]; the subtracted term is at most
50, the pre-clamp value is nonnegative and the max-with-0 clamp never
changes it. -/
theorem relationship_types_score_at_least_50 (l : List Activity)
    (h : 0 < total_relationships l) :
    50 ≤ (analyze_relationship_types l).score ∧
    (analyze_relationship_types l).score ≤ 100 ∧
    0 ≤ 100 - (non_fs_count l : ℚ) / (total_relationships l : ℚ) * 50 ∧
    (analyze_relationship_types l).score =
      round2 (100 - (non_fs_count l : ℚ) / (total_relationships l : ℚ) * 50) := by
  have hle : non_fs_count l ≤ total_relationships l := by
    unfold non_fs_count total_relationships
    exact List.sum_le_sum (fun a _ => List.countP_le_length _)
  have ht0 : (0 : ℚ) < (total_relationships l : ℚ) := by exact_mod_cast h
  have hratio0 : 0 ≤ (non_fs_count l : ℚ) / (total_relationships l : ℚ) :=
    div_nonneg (Nat.cast_nonneg _) (Nat.cast_nonneg _)
  have hratio1 : (non_fs_count l : ℚ) / (total_relationships l : ℚ) ≤ 1 :=
    (div_le_one ht0).mpr (by exact_mod_cast hle)
  have hinner0 : (0 : ℚ) ≤ 100 - (non_fs_count l : ℚ) / (total_relationships l : ℚ) * 50 := by
    nlinarith
  have hinner50 : (50 : ℚ) ≤ 100 - (non_fs_count l : ℚ) / (total_relationships l : ℚ) * 50 := by
    nlinarith
  have hinner100 :
      100 - (non_fs_count l : ℚ) / (total_relationships l : ℚ) * 50 ≤ (100 : ℚ) := by
    nlinarith
  have hscore : (analyze_relationship_types l).score =
      round2 (100 - (non_fs_count l : ℚ) / (total_relationships l : ℚ) * 50) := by
    simp only [analyze_relationship_types, if_pos h]
    rw [max_eq_right hinner0]
  refine ⟨?_, ?_, hinner0, hscore⟩
  · rw [hscore]
    have h50 := le_round2 (n := 50)
      (q := 100 - (non_fs_count l : ℚ) / (total_relationships l : ℚ) * 50)
      (by push_cast; linarith)
    simpa using h50
  · rw [hscore]
    have h100 := round2_le (n := 100)
      (q := 100 - (non_fs_count l : ℚ) / (total_relationships l : ℚ) * 50)
      (by push_cast; linarith)
    simpa using h100

/-- Witness for C10 on a single activity with one Finish-Start
predecessor relationship. -/
theorem relationship_types_score_at_least_50_witness :
    50 ≤ (analyze_relationship_types [linkedActivity]).score ∧
    (analyze_relationship_types [linkedActivity]).score ≤ 100 ∧
    0 ≤ 100 - (non_fs_count [linkedActivity] : ℚ)
      / (total_relationships [linkedActivity] : ℚ) * 50 ∧
    (analyze_relationship_types [linkedActivity]).score =
      round2 (100 - (non_fs_count [linkedActivity] : ℚ)
        / (total_relationships [linkedActivity] : ℚ) * 50) :=
  relationship_types_score_at_least_50 [linkedActivity] (by decide)

theorem mem_if_singleton_iff {α : Type} (y x : α) (c : Prop) [Decidable c] :
    y ∈ (if c then [x] else ([] : List α)) ↔ (c ∧ y = x) := by
  split_ifs with hc <;> simp [hc]

theorem map_if_singleton {α β : Type} (f : α → β) (c : Prop) [Decidable c] (x : α) :
    (if c then [x] else ([] : List α)).map f = if c then [f x] else [] := by
  split_ifs <;> simp

theorem filter_if_singleton {α : Type} (p : α → Bool) (c : Prop) [Decidable c] (x : α) :
    (if c then [x] else ([] : List α)).filter p =
      if c then (if p x then [x] else []) else [] := by
  split_ifs <;> simp_all [List.filter]

/-- Claim C8: the recommendation generator reads only the six metric
results named in its rules (so it never reacts to Leads, Lags,
Relationship Types or Invalid Dates), every entry it emits is one of six
fixed category-priority pairs, each category appears exactly when its
fixed threshold condition holds, and with Missing-Logic score 60 and a
positive Negative-Float count the high-priority entries are exactly Logic
followed by Schedule. -/
theorem recommendations_rules (M N : Metrics)
    (hL : M.logic = N.logic) (hNF : M.negativeFloat = N.negativeFloat)
    (hHF : M.highFloat = N.highFloat) (hHD : M.highDuration = N.highDuration)
    (hHC : M.hardConstraints = N.hardConstraints) (hR : M.resources = N.resources) :
    generate_recommendations M = generate_recommendations N ∧
    (∀ r ∈ generate_recommendations M, (r.category, r.priority) ∈
      ([("Logic", "high"), ("Schedule", "high"), ("Float", "medium"),
        ("Duration", "medium"), ("Constraints", "medium"), ("Resources", "low")]
        : List (String × String))) ∧
    (("Logic" ∈ (generate_recommendations M).map (fun r => r.category)) ↔
      M.logic.score < 80) ∧
    (("Schedule" ∈ (generate_recommendations M).map (fun r => r.category)) ↔
      0 < M.negativeFloat.negativeFloatTasks) ∧
    (("Float" ∈ (generate_recommendations M).map (fun r => r.category)) ↔
      M.highFloat.score < 70) ∧
    (("Duration" ∈ (generate_recommendations M).map (fun r => r.category)) ↔
      M.highDuration.score < 70) ∧
    (("Constraints" ∈ (generate_recommendations M).map (fun r => r.category)) ↔
      M.hardConstraints.score < 85) ∧
    (("Resources" ∈ (generate_recommendations M).map (fun r => r.category)) ↔
      M.resources.score < 50) ∧
    (M.logic.score = 60 → M.negativeFloat.negativeFloatTasks = 3 →
      ((generate_recommendations M).filter (fun r => r.priority == "high")).map
        (fun r => r.category) = ["Logic", "Schedule"]) := by
  refine ⟨?_, ?_, ?_, ?_, ?_, ?_, ?_, ?_, ?_⟩
  · simp only [generate_recommendations, hL, hNF, hHF, hHD, hHC, hR]
  · intro r hr
    simp only [generate_recommendations, List.mem_append, mem_if_singleton_iff] at hr
    rcases hr with ((((⟨_, rfl⟩ | ⟨_, rfl⟩) | ⟨_, rfl⟩) | ⟨_, rfl⟩) | ⟨_, rfl⟩) | ⟨_, rfl⟩ <;>
      simp
  · simp [generate_recommendations, List.map_append, map_if_singleton, mem_if_singleton_iff]
  · simp [generate_recommendations, List.map_append, map_if_singleton, mem_if_singleton_iff]
  · simp [generate_recommendations, List.map_append, map_if_singleton, mem_if_singleton_iff]
  · simp [generate_recommendations, List.map_append, map_if_singleton, mem_if_singleton_iff]
  · simp [generate_recommendations, List.map_append, map_if_singleton, mem_if_singleton_iff]
  · simp [generate_recommendations, List.map_append, map_if_singleton, mem_if_singleton_iff]
  · intro h60 h3
    norm_num [generate_recommendations, List.filter_append, filter_if_singleton, h60, h3]
    exact ⟨fun _ => by simp, fun _ => by simp, fun _ => by simp, fun _ => by simp⟩

/-- Witness for C8 on a concrete metrics mapping with Missing-Logic score
60 and three negative-float tasks. -/
theorem recommendations_rules_witness :
    ((generate_recommendations metricsE).filter (fun r => r.priority == "high")).map
      (fun r => r.category) = ["Logic", "Schedule"] :=
  (recommendations_rules metricsE metricsE rfl rfl rfl rfl rfl rfl).2.2.2.2.2.2.2.2 rfl rfl
